import Mathlib

/-!
# Verification of the optimistic-mutation engine of plasmic-supabase

Shallow embedding of the optimistic-update transforms
(`useOptimisticOperations.ts`) and the mutation coordinator
(`useMutationWithOptimisticUpdates.ts`).

JavaScript values relevant to the claims are modelled by `JSValue`
(numbers as `Int`; non-scalar values by reference identity).  Rows are
association lists observed through first-match field lookup, which gives
object-spread override semantics when new fields are prepended.

Helpers of the repository that are not under `src/`
(`clientSideOrderBy`, `getMutationPhrases`, `buildSupabaseProviderError`)
are modelled from the spec and marked as such; the two external
validators are taken as parameters, so every theorem about the
coordinator holds for every validator behaviour.
-/

namespace PlasmicSupabase

/-- Model of the JavaScript values appearing in rows and payloads.
Numbers are modelled as `Int`; objects/arrays (non-scalars) are modelled
by a reference token, matching `===` reference equality. -/
inductive JSValue where
  | undef : JSValue
  | null : JSValue
  | bool (b : Bool) : JSValue
  | num (n : Int) : JSValue
  | str (s : String) : JSValue
  | ref (o : Nat) : JSValue
deriving DecidableEq

/-- A database row: mapping from column name to value, observed through
first-match lookup (`getField`). -/
abbrev Row := List (String × JSValue)

/-- `r[k]` in JavaScript: the first binding of `k`, or `undefined`. -/
def getField (r : Row) (k : String) : JSValue :=
  match r with
  | [] => JSValue.undef
  | (k2, v) :: rest => if k2 = k then v else getField rest k

/-- `typeof v === "number" || typeof v === "string"` —
the scalar check of `deleteRowOptimistically`. -/
def isScalar (v : JSValue) : Bool :=
  match v with
  | JSValue.num _ => true
  | JSValue.str _ => true
  | _ => false

/-- JavaScript `x || null` on an optional number: `0` is falsy. -/
def jsCountOrNull (x : Option Int) : Option Int :=
  match x with
  | some 0 => none
  | some n => some n
  | none => none

/-- One entry of the active order specification (the `OrderBy` type of
`buildSupabaseQueryWithDynamicFilters`, not under `src/`; field and
direction per the spec's `sort(orderSpec, rows)` contract). -/
structure OrderBy where
  field : String
  ascending : Bool
deriving DecidableEq

/-- Lexicographic comparison of character lists by code point. -/
def charListLe : List Char → List Char → Bool
  | [], _ => true
  | _ :: _, [] => false
  | c :: cs, d :: ds =>
    if c.toNat = d.toNat then charListLe cs ds else c.toNat ≤ d.toNat

/-- Lexicographic string comparison by code point. -/
def strLe (a b : String) : Bool := charListLe a.data b.data

/-- A total comparison on values used by the modelled client-side sort. -/
def valLe (a b : JSValue) : Bool :=
  match a, b with
  | JSValue.undef, _ => true
  | _, JSValue.undef => false
  | JSValue.null, _ => true
  | _, JSValue.null => false
  | JSValue.bool x, JSValue.bool y => !x || y
  | JSValue.bool _, _ => true
  | _, JSValue.bool _ => false
  | JSValue.num x, JSValue.num y => x ≤ y
  | JSValue.num _, _ => true
  | _, JSValue.num _ => false
  | JSValue.str x, JSValue.str y => strLe x y
  | JSValue.str _, _ => true
  | _, JSValue.str _ => false
  | JSValue.ref x, JSValue.ref y => x ≤ y

/-- Lexicographic row comparison along the order specification. -/
def rowLe (obs : List OrderBy) (a b : Row) : Bool :=
  match obs with
  | [] => true
  | ob :: rest =>
    let va := getField a ob.field
    let vb := getField b ob.field
    if va = vb then rowLe rest a b
    else if ob.ascending then valLe va vb else valLe vb va

/-- Modelled from the spec: `clientSideOrderBy` (helpers/clientSideOrderBy,
not under `src/`) is the pure client-side sort with contract
`sort(orderSpec, rows) -> rows` (spec §1, §9); modelled as a stable
insertion sort by the order specification. -/
def clientSideOrderBy (obs : List OrderBy) (rows : List Row) : List Row :=
  List.insertionSort (fun a b => rowLe obs a b = true) rows

/-- `clientSideOrderBy` permutes its input (it is a sort). -/
theorem clientSideOrderBy_perm (obs : List OrderBy) (rows : List Row) :
    List.Perm (clientSideOrderBy obs rows) rows :=
  List.perm_insertionSort _ rows

/-- `SupabaseProviderFetchResult`: the cached snapshot
`{ data: Rows | null, count: number | null }`. -/
structure FetchResult where
  data : Option (List Row)
  count : Option Int
deriving DecidableEq

/-- The absent-equivalent snapshot `{data: null, count: null}`. -/
def nullSnapshot : FetchResult := { data := none, count := none }

/-- `returnUnchangedData` of `useOptimisticOperations.ts`: identity
transform; absent snapshot becomes `{data: null, count: null}`. -/
def returnUnchangedData (currentData : Option FetchResult) : FetchResult :=
  match currentData with
  | none => nullSnapshot
  | some d => d

/-- `addRowOptimistically` of `useOptimisticOperations.ts`: append the
optimistic row, client-side sort, increment count unless
`returnCount === "none"` (JS `(currentData.count || 0) + 1`). -/
def addRowOptimistically (returnCount : Option String) (obs : List OrderBy)
    (currentData : Option FetchResult) (optimisticRow : Row) : FetchResult :=
  let cur := match currentData with
    | none => nullSnapshot
    | some d => d
  { data := some (clientSideOrderBy obs ((cur.data.getD []) ++ [optimisticRow]))
  , count := if returnCount ≠ some "none" then some (cur.count.getD 0 + 1) else none }

/-- `editRowOptimistically` of `useOptimisticOperations.ts`: replace the
row whose unique-identifier field equals the optimistic row's
(`===` on the field values), client-side sort, count untouched. -/
def editRowOptimistically (obs : List OrderBy) (uniqueIdentifierField : String)
    (currentData : Option FetchResult) (optimisticRow : Row) : FetchResult :=
  match currentData with
  | none => nullSnapshot
  | some cur =>
    { data := some (clientSideOrderBy obs
        ((cur.data.getD []).map (fun row =>
          if getField row uniqueIdentifierField =
              getField optimisticRow uniqueIdentifierField
          then optimisticRow else row)))
    , count := cur.count }

/-- The invalid-optimistic-input error thrown by the delete transform. -/
def deleteInvalidMsg : String :=
  "InvalidOptimisticInput: unable to optimistically delete row"

/-- `deleteRowOptimistically` of `useOptimisticOperations.ts`: absent
snapshot short-circuits to the null snapshot; then the optimistic row's
unique-identifier value must be a number or string or the transform
throws; matching rows are filtered out and the count decremented unless
`returnCount === "none"` (JS `(currentData.count || 0) - 1`). -/
def deleteRowOptimistically (returnCount : Option String)
    (uniqueIdentifierField : String)
    (currentData : Option FetchResult) (optimisticRow : Row) :
    Except String FetchResult :=
  match currentData with
  | none => Except.ok nullSnapshot
  | some cur =>
    let uniqueIdentifierVal := getField optimisticRow uniqueIdentifierField
    if isScalar uniqueIdentifierVal then
      Except.ok
        { data := some ((cur.data.getD []).filter (fun row =>
            getField row uniqueIdentifierField ≠ uniqueIdentifierVal))
        , count := if returnCount ≠ some "none" then some (cur.count.getD 0 - 1) else none }
    else
      Except.error deleteInvalidMsg

/-- `replaceDataOptimistically` of `useOptimisticOperations.ts`: replace
data wholesale; `count: optimisticCount || null` (JS falsy `0`). -/
def replaceDataOptimistically (_currentData : Option FetchResult)
    (optimisticData : List Row) (optimisticCount : Option Int) : FetchResult :=
  { data := some optimisticData
  , count := jsCountOrNull optimisticCount }

/-- Tag naming which optimistic function `chooseOptimisticFunction`
returned (the source returns the function itself; `applyChoice` below
interprets the tag as that function). -/
inductive OptimisticChoice where
  | identity : OptimisticChoice
  | addRow : OptimisticChoice
  | editRow : OptimisticChoice
  | deleteRow : OptimisticChoice
  | replace (optimisticData : List Row) (optimisticCount : Option Int) : OptimisticChoice
deriving DecidableEq

/-- `chooseOptimisticFunction` of `useOptimisticOperations.ts`: the
switch over `requestedOptimisticOperation` (any unrecognized value
throws). -/
def chooseOptimisticFunction (requestedOptimisticOperation : Option String)
    (optimisticRowFinal : Option Row) (optimisticDataFinal : Option (List Row))
    (optimisticCount : Option Int) : Except String OptimisticChoice :=
  match requestedOptimisticOperation with
  | none => Except.ok OptimisticChoice.identity
  | some op =>
    if op = "addRow" then
      Except.ok (if optimisticRowFinal.isSome then OptimisticChoice.addRow
                 else OptimisticChoice.identity)
    else if op = "editRow" then
      Except.ok (if optimisticRowFinal.isSome then OptimisticChoice.editRow
                 else OptimisticChoice.identity)
    else if op = "deleteRow" then
      Except.ok (if optimisticRowFinal.isSome then OptimisticChoice.deleteRow
                 else OptimisticChoice.identity)
    else if op = "replaceData" then
      Except.ok (match optimisticDataFinal with
                 | some d => OptimisticChoice.replace d optimisticCount
                 | none => OptimisticChoice.identity)
    else
      Except.error "Invalid optimisticOperation in flexibleMutationSettings"

/-- Interpretation of an `OptimisticChoice` as the source transform it
names, applied the way the `mutate` call site applies the chosen
function (`optimisticFunc(currentData, optimisticRowFinal || undefined)`).
The row-taking branches are only ever chosen with a present row; the
`none` fallbacks are unreachable by construction. -/
def applyChoice (returnCount : Option String) (uniqueIdentifierField : String)
    (obs : List OrderBy) (choice : OptimisticChoice)
    (currentData : Option FetchResult) (optimisticRowFinal : Option Row) :
    Except String FetchResult :=
  match choice with
  | OptimisticChoice.identity => Except.ok (returnUnchangedData currentData)
  | OptimisticChoice.addRow =>
    match optimisticRowFinal with
    | some r => Except.ok (addRowOptimistically returnCount obs currentData r)
    | none => Except.error "unreachable: addRow chosen without optimistic row"
  | OptimisticChoice.editRow =>
    match optimisticRowFinal with
    | some r => Except.ok (editRowOptimistically obs uniqueIdentifierField currentData r)
    | none => Except.error "unreachable: editRow chosen without optimistic row"
  | OptimisticChoice.deleteRow =>
    match optimisticRowFinal with
    | some r => deleteRowOptimistically returnCount uniqueIdentifierField currentData r
    | none => Except.error "unreachable: deleteRow chosen without optimistic row"
  | OptimisticChoice.replace d oc =>
    Except.ok (replaceDataOptimistically currentData d oc)

/-! ## The mutation coordinator (`useMutationWithOptimisticUpdates.ts`)

The coordinator is embedded as a deterministic function from its inputs
(plus the cache's current snapshot and the backend outcome) to the
chronological list of its observable events: synchronous throws (which
reject the caller's promise when nothing was resolved yet), promise
resolutions, the start of the backend call, the synchronous application
of the optimistic producer inside the cache's `mutate`, the settling of
the backend call, and callback invocations.  A producer that throws
makes `mutate` reject (its implementation is an async function), which
the coordinator's `catch` branch handles. -/

/-- `{...optimisticRow, optimisticId: uuid(), isOptimistic: true}`:
object spread with override, modelled by prepending the two stamped
fields (first-match lookup makes them override). -/
def stampOptimistic (freshId : String) (r : Row) : Row :=
  ("isOptimistic", JSValue.bool true) :: ("optimisticId", JSValue.str freshId) :: r

/-- `flexibleMutationSettings` parameter of `handleMutation`
(filters are opaque to the claims). -/
structure FlexibleMutationSettings where
  tableName : String
  operation : String
  filters : Option (List JSValue)
  optimisticOperation : Option String
deriving DecidableEq

/-- `rpcSettings` parameter of `handleMutation`. -/
structure RpcSettings where
  rpcName : String
  optimisticOperation : Option String
deriving DecidableEq

/-- The per-call arguments of `handleMutation`.  `optimisticData` may be
a single non-array object (`Sum.inl`) or an array of rows (`Sum.inr`);
callback presence models the `if (memoizedOnMutateSuccess)` /
`if (memoizedOnError)` truthiness checks. -/
structure HandleMutationArgs where
  mutationType : String
  dataForSupabase : Option JSValue
  shouldReturnRow : Bool
  returnImmediately : Bool
  optimisticRow : Option Row
  optimisticData : Option (Sum Row (List Row))
  optimisticCount : Option Int
  customMetadata : Option JSValue
  flexibleMutationSettings : Option FlexibleMutationSettings
  rpcSettings : Option RpcSettings
  hasOnMutateSuccess : Bool
  hasOnError : Bool
deriving DecidableEq

/-- Outcome of the cache's `mutate` promise when the optimistic producer
did not throw: it resolves with the backend response (possibly
`undefined`) or rejects with the backend error. -/
inductive BackendOutcome where
  | resolves (response : Option FetchResult) : BackendOutcome
  | rejects (err : JSValue) : BackendOutcome
deriving DecidableEq

/-- The operation phrases `{inProgress, success, error}`. -/
structure MutationPhrases where
  inProgress : String
  success : String
  error : String
deriving DecidableEq

/-- Modelled from the spec: `getMutationPhrases`
(helpers/getOperationPhrases, not under `src/`) is the phrase lookup
keyed by mutation kind supplying the summary text of envelopes
(spec §4.4 step 6). -/
def getMutationPhrases (mutationType : String) : MutationPhrases :=
  if mutationType = "insert" then
    ⟨"Add row in progress", "Successfully added row", "Error adding row"⟩
  else if mutationType = "update" then
    ⟨"Edit row in progress", "Successfully edited row", "Error editing row"⟩
  else if mutationType = "delete" then
    ⟨"Delete row in progress", "Successfully deleted row", "Error deleting row"⟩
  else if mutationType = "flexibleMutation" then
    ⟨"Flexible mutation in progress", "Successfully ran flexible mutation",
     "Error running flexible mutation"⟩
  else if mutationType = "rpc" then
    ⟨"RPC in progress", "Successfully ran RPC", "Error running RPC"⟩
  else
    ⟨"Operation in progress", "Successfully ran operation", "Error running operation"⟩

/-- The normalized provider error. -/
structure SupabaseProviderError where
  errorObject : JSValue
  actionAttempted : String
  summary : String
  dataForSupabase : Option JSValue
  optimisticData : Option (Sum Row (List Row))
  customMetadata : Option JSValue
deriving DecidableEq

/-- Modelled from the spec: `buildSupabaseProviderError`
(helpers/buildSupabaseProviderErr, not under `src/`) builds the
normalized error object carrying the original error, attempted action,
summary, original input, speculative input and custom metadata
(spec §4.4 step 10). -/
def buildSupabaseProviderError (errorObject : JSValue) (actionAttempted : String)
    (summary : String) (dataForSupabase : Option JSValue)
    (optimisticData : Option (Sum Row (List Row)))
    (customMetadata : Option JSValue) : SupabaseProviderError :=
  { errorObject := errorObject
  , actionAttempted := actionAttempted
  , summary := summary
  , dataForSupabase := dataForSupabase
  , optimisticData := optimisticData
  , customMetadata := customMetadata }

/-- `SupabaseProviderMutateResult`: the envelope resolved to the caller
and passed to the success callback. -/
structure SupabaseProviderMutateResult where
  data : Option (List Row)
  count : Option Int
  optimisticData : Option (Sum Row (List Row))
  optimisticCount : Option Int
  dataForSupabase : Option JSValue
  action : String
  summary : String
  status : String
  error : Option SupabaseProviderError
  customMetadata : Option JSValue
deriving DecidableEq

/-- Observable events of one `handleMutation` call, in order. -/
inductive Ev where
  | threwSync (msg : String) : Ev
  | resolvedP (r : SupabaseProviderMutateResult) : Ev
  | backendCallStarted (mutationType : String) : Ev
  | optimisticApplied (snapshot : FetchResult) : Ev
  | optimisticThrew (msg : String) : Ev
  | backendSettled : Ev
  | successCallback (r : SupabaseProviderMutateResult) : Ev
  | errorCallback (e : SupabaseProviderError) : Ev
deriving DecidableEq

/-- The promise resolutions contained in a trace, in order. -/
def resolvedEnvelopes (t : List Ev) : List SupabaseProviderMutateResult :=
  t.filterMap (fun e => match e with
    | Ev.resolvedP r => some r
    | _ => none)

/-- The type of `validateFlexibleMutationSettings` (helper not under
`src/`, taken as a parameter): receives table name, operation,
`dataForSupabase` and filters. -/
abbrev FlexValidator :=
  Option String → Option String → Option JSValue → Option (List JSValue) →
    Except String Unit

/-- The type of `validateDynamicOptimisticSettings` (helper not under
`src/`, taken as a parameter): receives `optimisticData` and the
normalized requested optimistic operation. -/
abbrev DynValidator :=
  Option (Sum Row (List Row)) → Option String → Except String Unit

/-- Lines 137-142: the empty-string optimistic-operation sentinel is
normalized to unset on both settings objects before anything else. -/
def normalizeArgs (args : HandleMutationArgs) : HandleMutationArgs :=
  { args with
    flexibleMutationSettings := args.flexibleMutationSettings.map (fun s =>
      if s.optimisticOperation = some "" then { s with optimisticOperation := none } else s)
  , rpcSettings := args.rpcSettings.map (fun s =>
      if s.optimisticOperation = some "" then { s with optimisticOperation := none } else s) }

/-- Lines 144-166: validation of flexible-mutation and rpc settings
(throws abort the executor).  Returns the thrown message, if any. -/
def validationError (vFlex : FlexValidator) (vDyn : DynValidator)
    (args : HandleMutationArgs) : Option String :=
  if args.mutationType = "flexibleMutation" then
    match vFlex (args.flexibleMutationSettings.map (fun s => s.tableName))
        (args.flexibleMutationSettings.map (fun s => s.operation))
        args.dataForSupabase
        (args.flexibleMutationSettings.bind (fun s => s.filters)) with
    | Except.error e => some e
    | Except.ok _ =>
      match vDyn args.optimisticData
          (args.flexibleMutationSettings.bind (fun s => s.optimisticOperation)) with
      | Except.error e => some e
      | Except.ok _ => none
  else if args.mutationType = "rpc" then
    match args.rpcSettings with
    | none => some "You must provide an rpcName in runRpc action"
    | some r =>
      if r.rpcName = "" then some "You must provide an rpcName in runRpc action"
      else
        match vDyn args.optimisticData r.optimisticOperation with
        | Except.error e => some e
        | Except.ok _ => none
  else none

/-- Lines 180-206: stamp the explicit optimistic row; a non-array
single-object `optimisticData` is reinterpreted as the optimistic row
(stamped) with the dataset left unset; an array is carried through as
the dataset. -/
def materializeOptimistic (freshId : String) (optimisticRow : Option Row)
    (optimisticData : Option (Sum Row (List Row))) :
    Option Row × Option (List Row) :=
  let optimisticRowFinal0 := optimisticRow.map (stampOptimistic freshId)
  match optimisticData with
  | some (Sum.inl r) => (some (stampOptimistic freshId r), none)
  | some (Sum.inr l) => (optimisticRowFinal0, some l)
  | none => (optimisticRowFinal0, none)

/-- `optimisticRowFinal || optimisticDataFinal || null` (both are
objects, hence truthy when present). -/
def envOptimisticData (rowFinal : Option Row) (dataFinal : Option (List Row)) :
    Option (Sum Row (List Row)) :=
  match rowFinal with
  | some r => some (Sum.inl r)
  | none => dataFinal.map Sum.inr

/-- The `status: "pending"` envelope of lines 210-224. -/
def pendingEnvelope (args : HandleMutationArgs) (phrases : MutationPhrases)
    (rowFinal : Option Row) (dataFinal : Option (List Row)) :
    SupabaseProviderMutateResult :=
  { data := none
  , count := none
  , optimisticData := envOptimisticData rowFinal dataFinal
  , optimisticCount := jsCountOrNull args.optimisticCount
  , dataForSupabase := args.dataForSupabase
  , action := args.mutationType
  , summary := phrases.inProgress
  , status := "pending"
  , error := none
  , customMetadata := args.customMetadata }

/-- The `status: "success"` envelope of lines 330-341
(`response ? response.data : null`, likewise for count). -/
def successEnvelope (args : HandleMutationArgs) (phrases : MutationPhrases)
    (rowFinal : Option Row) (dataFinal : Option (List Row))
    (response : Option FetchResult) : SupabaseProviderMutateResult :=
  { data := match response with | some r => r.data | none => none
  , count := match response with | some r => r.count | none => none
  , optimisticData := envOptimisticData rowFinal dataFinal
  , optimisticCount := jsCountOrNull args.optimisticCount
  , dataForSupabase := args.dataForSupabase
  , action := args.mutationType
  , summary := phrases.success
  , status := "success"
  , error := none
  , customMetadata := args.customMetadata }

/-- The `status: "error"` envelope of lines 365-378. -/
def errorEnvelope (args : HandleMutationArgs) (phrases : MutationPhrases)
    (rowFinal : Option Row) (dataFinal : Option (List Row))
    (pe : SupabaseProviderError) : SupabaseProviderMutateResult :=
  { data := none
  , count := none
  , optimisticData := envOptimisticData rowFinal dataFinal
  , optimisticCount := jsCountOrNull args.optimisticCount
  , dataForSupabase := args.dataForSupabase
  , action := args.mutationType
  , summary := phrases.error
  , status := "error"
  , error := some pe
  , customMetadata := args.customMetadata }

/-- Lines 264-311: the switch selecting the optimistic function per
mutation type (flexible/rpc delegate to `chooseOptimisticFunction`;
unknown types throw). -/
def chooseForType (args : HandleMutationArgs) (rowFinal : Option Row)
    (dataFinal : Option (List Row)) : Except String OptimisticChoice :=
  if args.mutationType = "insert" then
    Except.ok (if rowFinal.isSome then OptimisticChoice.addRow
               else OptimisticChoice.identity)
  else if args.mutationType = "update" then
    Except.ok (if rowFinal.isSome then OptimisticChoice.editRow
               else OptimisticChoice.identity)
  else if args.mutationType = "delete" then
    Except.ok (if rowFinal.isSome then OptimisticChoice.deleteRow
               else OptimisticChoice.identity)
  else if args.mutationType = "flexibleMutation" then
    chooseOptimisticFunction
      (args.flexibleMutationSettings.bind (fun s => s.optimisticOperation))
      rowFinal dataFinal args.optimisticCount
  else if args.mutationType = "rpc" then
    chooseOptimisticFunction
      (args.rpcSettings.bind (fun s => s.optimisticOperation))
      rowFinal dataFinal args.optimisticCount
  else
    Except.error "Invalid operation"

/-- Lines 313-380: the mutator function is invoked first (starting the
backend call), then `mutate` applies the optimistic producer
synchronously; a producer throw rejects `mutate` and is handled by the
`catch` branch; otherwise the backend outcome drives the success or
error branch.  `resolve` fires in these branches only when
`returnImmediately` did not already resolve the promise. -/
def runPhase (returnCount : Option String) (uniqueIdentifierField : String)
    (obs : List OrderBy) (args : HandleMutationArgs)
    (phrases : MutationPhrases) (rowFinal : Option Row)
    (dataFinal : Option (List Row)) (choice : OptimisticChoice)
    (cur : Option FetchResult) (backend : BackendOutcome) : List Ev :=
  Ev.backendCallStarted args.mutationType ::
  match applyChoice returnCount uniqueIdentifierField obs choice cur rowFinal with
  | Except.error msg =>
    let pe := buildSupabaseProviderError (JSValue.str msg) args.mutationType
      phrases.error args.dataForSupabase (envOptimisticData rowFinal dataFinal)
      args.customMetadata
    Ev.optimisticThrew msg ::
      ((if args.hasOnError then [Ev.errorCallback pe] else []) ++
       (if args.returnImmediately then []
        else [Ev.resolvedP (errorEnvelope args phrases rowFinal dataFinal pe)]))
  | Except.ok snap =>
    Ev.optimisticApplied snap :: Ev.backendSettled ::
    match backend with
    | BackendOutcome.resolves response =>
      let result := successEnvelope args phrases rowFinal dataFinal response
      (if args.hasOnMutateSuccess then [Ev.successCallback result] else []) ++
      (if args.returnImmediately then [] else [Ev.resolvedP result])
    | BackendOutcome.rejects err =>
      let pe := buildSupabaseProviderError err args.mutationType phrases.error
        args.dataForSupabase (envOptimisticData rowFinal dataFinal)
        args.customMetadata
      (if args.hasOnError then [Ev.errorCallback pe] else []) ++
      (if args.returnImmediately then []
       else [Ev.resolvedP (errorEnvelope args phrases rowFinal dataFinal pe)])

/-- The body of the promise executor, on already-normalized arguments:
validation throws, the both-speculative-inputs check, materialization,
the immediate `pending` resolution, transform selection (whose throw
comes after a possible `pending` resolution), then the mutate phase. -/
def handleMutationCore (vFlex : FlexValidator) (vDyn : DynValidator)
    (returnCount : Option String) (uniqueIdentifierField : String)
    (obs : List OrderBy) (freshId : String) (args : HandleMutationArgs)
    (cur : Option FetchResult) (backend : BackendOutcome) : List Ev :=
  match validationError vFlex vDyn args with
  | some e => [Ev.threwSync e]
  | none =>
    let phrases := getMutationPhrases args.mutationType
    if args.optimisticRow.isSome && args.optimisticData.isSome then
      [Ev.threwSync "You can only specify an optimisticRow or optimisticData, not both"]
    else
      let mat := materializeOptimistic freshId args.optimisticRow args.optimisticData
      let pendingEvs :=
        if args.returnImmediately then
          [Ev.resolvedP (pendingEnvelope args phrases mat.1 mat.2)]
        else []
      match chooseForType args mat.1 mat.2 with
      | Except.error e => pendingEvs ++ [Ev.threwSync e]
      | Except.ok choice =>
        pendingEvs ++ runPhase returnCount uniqueIdentifierField obs args
          phrases mat.1 mat.2 choice cur backend

/-- `handleMutation` of `useMutationWithOptimisticUpdates.ts`: normalize
the empty-string sentinels, then run the executor body. -/
def handleMutation (vFlex : FlexValidator) (vDyn : DynValidator)
    (returnCount : Option String) (uniqueIdentifierField : String)
    (obs : List OrderBy) (freshId : String) (args : HandleMutationArgs)
    (cur : Option FetchResult) (backend : BackendOutcome) : List Ev :=
  handleMutationCore vFlex vDyn returnCount uniqueIdentifierField obs freshId
    (normalizeArgs args) cur backend

/-! ## Helper lemmas -/

/-- A map that fixes every element of a list is the identity on it. -/
theorem map_fix_eq_self {α : Type} (f : α → α) (l : List α)
    (h : ∀ x ∈ l, f x = x) : l.map f = l := by
  induction l with
  | nil => rfl
  | cons a t ih =>
    simp only [List.map_cons, h a (by simp)]
    rw [ih (fun x hx => h x (by simp [hx]))]

/-- Field lookup on a stamped row: the two synthetic fields override,
everything else reads through to the original row. -/
theorem getField_stampOptimistic (freshId : String) (r : Row) (k : String) :
    getField (stampOptimistic freshId r) k =
      if "isOptimistic" = k then JSValue.bool true
      else if "optimisticId" = k then JSValue.str freshId
      else getField r k := by
  rfl

/-- `resolvedEnvelopes` distributes over concatenation. -/
theorem resolvedEnvelopes_append (a b : List Ev) :
    resolvedEnvelopes (a ++ b) = resolvedEnvelopes a ++ resolvedEnvelopes b :=
  List.filterMap_append a b _

/-- Permutations preserve row occurrence counts (stated for the `BEq`
instance the statements elaborate with). -/
theorem count_of_perm (l1 l2 : List Row) (h : List.Perm l1 l2) (r : Row) :
    l1.count r = l2.count r :=
  h.countP_eq _

/-- A resolution event is in a trace exactly when its envelope is among
the resolved envelopes. -/
theorem resolvedP_mem_iff (t : List Ev) (r : SupabaseProviderMutateResult) :
    Ev.resolvedP r ∈ t ↔ r ∈ resolvedEnvelopes t := by
  constructor
  · intro h
    exact List.mem_filterMap.mpr ⟨Ev.resolvedP r, h, rfl⟩
  · intro h
    rcases List.mem_filterMap.mp h with ⟨e, he, hfe⟩
    cases e <;> simp_all

/-! ## C1: the insert transform -/

/-- C1: for every cached snapshot and every speculative row not already
present, the insert transform returns the client-side sort of the
existing rows (absent data treated as empty) with the speculative row
appended, so the new row appears exactly once; the count is the prior
count (absent treated as 0) incremented by 1, unless count-tracking is
disabled (`returnCount = "none"`), in which case the count is null. -/
theorem C1_insert_transform (returnCount : Option String) (obs : List OrderBy)
    (currentData : Option FetchResult) (optimisticRow : Row)
    (h : optimisticRow ∉ (returnUnchangedData currentData).data.getD []) :
    (addRowOptimistically returnCount obs currentData optimisticRow).data
      = some (clientSideOrderBy obs
          ((returnUnchangedData currentData).data.getD [] ++ [optimisticRow]))
    ∧ ((addRowOptimistically returnCount obs currentData optimisticRow).data.getD
        []).count optimisticRow = 1
    ∧ (returnCount ≠ some "none" →
        (addRowOptimistically returnCount obs currentData optimisticRow).count
          = some ((returnUnchangedData currentData).count.getD 0 + 1))
    ∧ (returnCount = some "none" →
        (addRowOptimistically returnCount obs currentData optimisticRow).count
          = none) := by
  have hdata : (addRowOptimistically returnCount obs currentData optimisticRow).data
      = some (clientSideOrderBy obs
          ((returnUnchangedData currentData).data.getD [] ++ [optimisticRow])) := by
    cases currentData <;> rfl
  refine ⟨hdata, ?_, ?_, ?_⟩
  · rw [hdata]
    simp only [Option.getD_some]
    have hperm := clientSideOrderBy_perm obs
      ((returnUnchangedData currentData).data.getD [] ++ [optimisticRow])
    rw [count_of_perm _ _ hperm, List.count_append, List.count_eq_zero.mpr h]
    simp
  · intro hne
    cases currentData <;> simp [addRowOptimistically, hne, returnUnchangedData,
      nullSnapshot]
  · intro heq
    cases currentData <;> simp [addRowOptimistically, heq]

def wOb : List OrderBy := [⟨"name", true⟩]

def wRow1 : Row := [("id", JSValue.num 1), ("name", JSValue.str "Alice")]

def wRow2 : Row := [("id", JSValue.num 2), ("name", JSValue.str "Carol")]

def wRowBob : Row := [("name", JSValue.str "Bob")]

def wSnap : FetchResult := { data := some [wRow1, wRow2], count := some 2 }

/-- Witness for C1 at a concrete snapshot and speculative row. -/
theorem C1_insert_transform_witness :
    wRowBob ∉ (returnUnchangedData (some wSnap)).data.getD []
    ∧ ((addRowOptimistically (some "exact") wOb (some wSnap) wRowBob).data
        = some (clientSideOrderBy wOb
            ((returnUnchangedData (some wSnap)).data.getD [] ++ [wRowBob]))
      ∧ ((addRowOptimistically (some "exact") wOb (some wSnap) wRowBob).data.getD
          []).count wRowBob = 1
      ∧ (some "exact" ≠ some "none" →
          (addRowOptimistically (some "exact") wOb (some wSnap) wRowBob).count
            = some ((returnUnchangedData (some wSnap)).count.getD 0 + 1))
      ∧ (some "exact" = some "none" →
          (addRowOptimistically (some "exact") wOb (some wSnap) wRowBob).count
            = none)) :=
  ⟨by decide, C1_insert_transform (some "exact") wOb (some wSnap) wRowBob (by decide)⟩

/-! ## C4: delete with no matching row -/

/-- C4: on a non-absent snapshot containing no row matching the
speculative row's scalar unique-identifier value, the delete transform
leaves the row content unchanged while still decrementing the count
(unless count-tracking is disabled): the decrement is unconditional on a
requested delete. -/
theorem C4_delete_no_match (returnCount : Option String)
    (uniqueIdentifierField : String) (c : FetchResult) (l : List Row)
    (optimisticRow : Row) (hdata : c.data = some l)
    (hscalar : isScalar (getField optimisticRow uniqueIdentifierField) = true)
    (hnomatch : ∀ r ∈ l, getField r uniqueIdentifierField
        ≠ getField optimisticRow uniqueIdentifierField) :
    deleteRowOptimistically returnCount uniqueIdentifierField (some c) optimisticRow
      = Except.ok
          { data := some l
          , count := if returnCount ≠ some "none" then some (c.count.getD 0 - 1)
                     else none } := by
  simp [deleteRowOptimistically, hscalar, hdata]
  exact hnomatch

/-- Witness for C4: deleting id 5 when no row with id 5 exists. -/
theorem C4_delete_no_match_witness :
    wSnap.data = some [wRow1, wRow2]
    ∧ isScalar (getField [("id", JSValue.num 5)] "id") = true
    ∧ (∀ r ∈ [wRow1, wRow2], getField r "id" ≠ getField [("id", JSValue.num 5)] "id")
    ∧ deleteRowOptimistically (some "exact") "id" (some wSnap) [("id", JSValue.num 5)]
        = Except.ok
            { data := some [wRow1, wRow2]
            , count := if (some "exact" : Option String) ≠ some "none" then
                         some (wSnap.count.getD 0 - 1)
                       else none } :=
  ⟨by decide, by decide, by decide,
    C4_delete_no_match (some "exact") "id" wSnap [wRow1, wRow2]
      [("id", JSValue.num 5)] (by decide) (by decide) (by decide)⟩

/-! ## C5: the edit transform -/

/-- C5: on a non-absent snapshot whose rows have pairwise-distinct
unique-identifier values and which contains a row matching the
speculative row's unique-identifier value, the edit transform replaces
exactly that one row, re-sorts per the active order specification,
leaves the number of rows unchanged and leaves the count untouched. -/
theorem C5_edit_transform (obs : List OrderBy) (uniqueIdentifierField : String)
    (c : FetchResult) (l : List Row) (optimisticRow rowM : Row)
    (hdata : c.data = some l)
    (hpw : l.Pairwise (fun a b => getField a uniqueIdentifierField
        ≠ getField b uniqueIdentifierField))
    (hmem : rowM ∈ l)
    (hid : getField rowM uniqueIdentifierField
        = getField optimisticRow uniqueIdentifierField) :
    (editRowOptimistically obs uniqueIdentifierField (some c) optimisticRow).count
      = c.count
    ∧ ∃ l1 l2, l = l1 ++ rowM :: l2
      ∧ (editRowOptimistically obs uniqueIdentifierField (some c) optimisticRow).data
          = some (clientSideOrderBy obs (l1 ++ optimisticRow :: l2))
      ∧ ((editRowOptimistically obs uniqueIdentifierField (some c)
            optimisticRow).data.getD []).length = l.length := by
  refine ⟨rfl, ?_⟩
  rcases List.append_of_mem hmem with ⟨l1, l2, rfl⟩
  rcases List.pairwise_append.mp hpw with ⟨_, hpw2, hcross⟩
  have hpwM := List.pairwise_cons.mp hpw2
  have hmap : (l1 ++ rowM :: l2).map (fun row =>
      if getField row uniqueIdentifierField
          = getField optimisticRow uniqueIdentifierField
      then optimisticRow else row) = l1 ++ optimisticRow :: l2 := by
    rw [List.map_append, List.map_cons]
    have h1 : l1.map (fun row =>
        if getField row uniqueIdentifierField
            = getField optimisticRow uniqueIdentifierField
        then optimisticRow else row) = l1 := by
      refine map_fix_eq_self _ _ (fun x hx => ?_)
      have hne := hcross x hx rowM (by simp)
      rw [if_neg (by rw [← hid]; exact hne)]
    have h2 : l2.map (fun row =>
        if getField row uniqueIdentifierField
            = getField optimisticRow uniqueIdentifierField
        then optimisticRow else row) = l2 := by
      refine map_fix_eq_self _ _ (fun x hx => ?_)
      have hne := hpwM.1 x hx
      rw [if_neg (by rw [← hid]; exact fun hc => hne hc.symm)]
    rw [h1, h2, if_pos hid]
  have hdataeq : (editRowOptimistically obs uniqueIdentifierField (some c)
      optimisticRow).data = some (clientSideOrderBy obs (l1 ++ optimisticRow :: l2)) := by
    simp [editRowOptimistically, hdata, hmap]
  refine ⟨l1, l2, rfl, hdataeq, ?_⟩
  rw [hdataeq]
  simp only [Option.getD_some]
  have hperm := clientSideOrderBy_perm obs (l1 ++ optimisticRow :: l2)
  rw [hperm.length_eq]
  simp

/-- Witness for C5: editing the row with id 2. -/
theorem C5_edit_transform_witness :
    wSnap.data = some [wRow1, wRow2]
    ∧ [wRow1, wRow2].Pairwise (fun a b => getField a "id" ≠ getField b "id")
    ∧ wRow2 ∈ [wRow1, wRow2]
    ∧ getField wRow2 "id" = getField [("id", JSValue.num 2), ("name", JSValue.str "Aaron")] "id"
    ∧ ((editRowOptimistically wOb "id" (some wSnap)
          [("id", JSValue.num 2), ("name", JSValue.str "Aaron")]).count = wSnap.count
      ∧ ∃ l1 l2, [wRow1, wRow2] = l1 ++ wRow2 :: l2
        ∧ (editRowOptimistically wOb "id" (some wSnap)
              [("id", JSValue.num 2), ("name", JSValue.str "Aaron")]).data
            = some (clientSideOrderBy wOb
                (l1 ++ [("id", JSValue.num 2), ("name", JSValue.str "Aaron")] :: l2))
        ∧ ((editRowOptimistically wOb "id" (some wSnap)
              [("id", JSValue.num 2), ("name", JSValue.str "Aaron")]).data.getD
            []).length = [wRow1, wRow2].length) :=
  ⟨by decide, by decide, by decide, by decide,
    C5_edit_transform wOb "id" wSnap [wRow1, wRow2]
      [("id", JSValue.num 2), ("name", JSValue.str "Aaron")] wRow2
      (by decide) (by decide) (by decide) (by decide)⟩

/-! ## C2: delete with a non-scalar unique-identifier value -/

/-- C2 counterexample: with an ABSENT cached snapshot, a delete whose
speculative row carries a null unique-identifier value does not fail at
all — the transform short-circuits to the null snapshot — refuting
"fails ... for every state of the cached snapshot (including an absent
snapshot)". -/
theorem C2_counterexample :
    deleteRowOptimistically (some "exact") "id" none [("id", JSValue.null)]
      = Except.ok nullSnapshot
    ∧ ∀ e, deleteRowOptimistically (some "exact") "id" none [("id", JSValue.null)]
        ≠ Except.error e :=
  ⟨rfl, fun _ h => Except.noConfusion h⟩

/-- C2 (amended): for every delete whose (stamped) speculative row
carries a unique-identifier value that is neither a number nor a string,
the delete transform fails with the invalid-optimistic-input error for
every NON-absent cached snapshot, and returns the null snapshot without
failing for an absent snapshot; at the coordinator the failure is raised
at optimistic-application time, strictly after the backend call was
started (the mutator function is invoked before `mutate` applies the
transform). -/
theorem core_trace_delete_invalid (vF : FlexValidator) (vD : DynValidator)
    (returnCount : Option String) (uid : String) (obs : List OrderBy)
    (freshId : String) (a : HandleMutationArgs) (row0 : Row)
    (c : FetchResult) (backend : BackendOutcome)
    (hval : validationError vF vD a = none)
    (hmt : a.mutationType = "delete")
    (hrow : a.optimisticRow = some row0)
    (hdata : a.optimisticData = none)
    (htrans : deleteRowOptimistically returnCount uid (some c)
        (stampOptimistic freshId row0) = Except.error deleteInvalidMsg) :
    ∃ pend tail,
      handleMutationCore vF vD returnCount uid obs freshId a (some c) backend
        = (if a.returnImmediately then [Ev.resolvedP pend] else [])
          ++ Ev.backendCallStarted "delete"
          :: Ev.optimisticThrew deleteInvalidMsg :: tail := by
  refine ⟨pendingEnvelope a (getMutationPhrases a.mutationType)
    (some (stampOptimistic freshId row0)) none,
    (if a.hasOnError then
      [Ev.errorCallback (buildSupabaseProviderError (JSValue.str deleteInvalidMsg)
        a.mutationType (getMutationPhrases a.mutationType).error
        a.dataForSupabase
        (envOptimisticData (some (stampOptimistic freshId row0)) none)
        a.customMetadata)] else [])
    ++ (if a.returnImmediately then [] else
      [Ev.resolvedP (errorEnvelope a (getMutationPhrases a.mutationType)
        (some (stampOptimistic freshId row0)) none
        (buildSupabaseProviderError (JSValue.str deleteInvalidMsg)
          a.mutationType (getMutationPhrases a.mutationType).error
          a.dataForSupabase
          (envOptimisticData (some (stampOptimistic freshId row0)) none)
          a.customMetadata))]), ?_⟩
  simp [handleMutationCore, hval, hmt, hrow, hdata, materializeOptimistic,
    chooseForType, runPhase, applyChoice, htrans]

/-- C2 (amended, continued): the full statement combining the transform
dichotomy with the coordinator-level trace shape. -/
theorem C2_delete_invalid_input (returnCount : Option String) (uid : String)
    (obs : List OrderBy) (freshId : String) (row0 row : Row)
    (hstamp : stampOptimistic freshId row0 = row)
    (hbad : isScalar (getField row uid) = false) :
    (∀ c : FetchResult,
        deleteRowOptimistically returnCount uid (some c) row
          = Except.error deleteInvalidMsg)
    ∧ deleteRowOptimistically returnCount uid none row = Except.ok nullSnapshot
    ∧ ∀ (vF : FlexValidator) (vD : DynValidator) (args : HandleMutationArgs)
        (c : FetchResult) (backend : BackendOutcome),
        args.mutationType = "delete" →
        args.optimisticRow = some row0 →
        args.optimisticData = none →
        ∃ pend tail,
          handleMutation vF vD returnCount uid obs freshId args (some c) backend
            = (if args.returnImmediately then [Ev.resolvedP pend] else [])
              ++ Ev.backendCallStarted "delete"
              :: Ev.optimisticThrew deleteInvalidMsg :: tail := by
  have htrans : ∀ c : FetchResult,
      deleteRowOptimistically returnCount uid (some c) row
        = Except.error deleteInvalidMsg := by
    intro c
    simp [deleteRowOptimistically, hbad]
  refine ⟨htrans, rfl, ?_⟩
  intro vF vD args c backend hmt hrow hdata
  have hval : validationError vF vD (normalizeArgs args) = none := by
    simp [validationError, normalizeArgs, hmt]
  exact core_trace_delete_invalid vF vD returnCount uid obs freshId
    (normalizeArgs args) row0 c backend hval hmt hrow hdata
    (by rw [hstamp]; exact htrans c)

/-! ## C3: both speculative inputs supplied -/

/-- C3: for every mutation kind and every validator behaviour, a
`handleMutation` call supplying both a speculative row and a speculative
dataset fails synchronously with a configuration error: its whole trace
is one synchronous throw — no backend call, no cache mutate, no promise
resolution. -/
theorem C3_both_speculative_inputs (vF : FlexValidator) (vD : DynValidator)
    (returnCount : Option String) (uniqueIdentifierField : String)
    (obs : List OrderBy) (freshId : String) (args : HandleMutationArgs)
    (cur : Option FetchResult) (backend : BackendOutcome)
    (hrow : args.optimisticRow.isSome = true)
    (hdata : args.optimisticData.isSome = true) :
    ∃ msg, handleMutation vF vD returnCount uniqueIdentifierField obs freshId
        args cur backend = [Ev.threwSync msg] := by
  have hrow' : (normalizeArgs args).optimisticRow.isSome = true := hrow
  have hdata' : (normalizeArgs args).optimisticData.isSome = true := hdata
  unfold handleMutation handleMutationCore
  cases hval : validationError vF vD (normalizeArgs args) with
  | some e => exact ⟨e, rfl⟩
  | none =>
    exact ⟨"You can only specify an optimisticRow or optimisticData, not both",
      by simp [hrow', hdata']⟩

/-- Witness for C3 at a concrete call. -/
theorem C3_both_speculative_inputs_witness :
    ({ mutationType := "insert", dataForSupabase := none, shouldReturnRow := true,
       returnImmediately := false, optimisticRow := some wRowBob,
       optimisticData := some (Sum.inr [wRow1]), optimisticCount := none,
       customMetadata := none, flexibleMutationSettings := none,
       rpcSettings := none, hasOnMutateSuccess := true,
       hasOnError := true } : HandleMutationArgs).optimisticRow.isSome = true
    ∧ ∃ msg, handleMutation (fun _ _ _ _ => Except.ok ()) (fun _ _ => Except.ok ())
        (some "exact") "id" wOb "uuid-1"
        { mutationType := "insert", dataForSupabase := none, shouldReturnRow := true,
          returnImmediately := false, optimisticRow := some wRowBob,
          optimisticData := some (Sum.inr [wRow1]), optimisticCount := none,
          customMetadata := none, flexibleMutationSettings := none,
          rpcSettings := none, hasOnMutateSuccess := true, hasOnError := true }
        none (BackendOutcome.resolves none) = [Ev.threwSync msg] :=
  ⟨rfl, C3_both_speculative_inputs (fun _ _ _ _ => Except.ok ())
    (fun _ _ => Except.ok ()) (some "exact") "id" wOb "uuid-1" _
    none (BackendOutcome.resolves none) rfl rfl⟩

/-! ## C6: the transform selector rule table -/

/-- Written from the spec's §4.2 rule table (not from the source), to be
compared with the source's `chooseOptimisticFunction`: unset operation
gives identity; addRow/editRow/deleteRow give the matching transform
when a speculative row was supplied, else identity; replaceData gives
the replace transform bound with the speculative dataset and count when
a dataset was supplied, else identity; any other value is an
InvalidOperation error. -/
def transformSelectorSpec (requestedOperation : Option String)
    (hasSpeculativeRow : Bool) (speculativeDataset : Option (List Row))
    (speculativeCount : Option Int) : Except String OptimisticChoice :=
  match requestedOperation with
  | none => Except.ok OptimisticChoice.identity
  | some op =>
    if op = "addRow" ∨ op = "editRow" ∨ op = "deleteRow" then
      if hasSpeculativeRow then
        Except.ok (if op = "addRow" then OptimisticChoice.addRow
                   else if op = "editRow" then OptimisticChoice.editRow
                   else OptimisticChoice.deleteRow)
      else Except.ok OptimisticChoice.identity
    else if op = "replaceData" then
      Except.ok (match speculativeDataset with
                 | some d => OptimisticChoice.replace d speculativeCount
                 | none => OptimisticChoice.identity)
    else Except.error "InvalidOperation"

/-- C6: the source's transform selector follows the spec's rule table
for every combination of inputs (same chosen transform, and an error on
exactly the same inputs — compared up to the error message text). -/
theorem C6_selector_table (requestedOperation : Option String)
    (optimisticRowFinal : Option Row) (optimisticDataFinal : Option (List Row))
    (optimisticCount : Option Int) :
    (chooseOptimisticFunction requestedOperation optimisticRowFinal
        optimisticDataFinal optimisticCount).toOption
      = (transformSelectorSpec requestedOperation optimisticRowFinal.isSome
          optimisticDataFinal optimisticCount).toOption := by
  cases requestedOperation with
  | none => rfl
  | some op =>
    by_cases h1 : op = "addRow"
    · cases optimisticRowFinal <;>
        simp [chooseOptimisticFunction, transformSelectorSpec, h1]
    · by_cases h2 : op = "editRow"
      · cases optimisticRowFinal <;>
          simp [chooseOptimisticFunction, transformSelectorSpec, h1, h2]
      · by_cases h3 : op = "deleteRow"
        · cases optimisticRowFinal <;>
            simp [chooseOptimisticFunction, transformSelectorSpec, h1, h2, h3]
        · by_cases h4 : op = "replaceData"
          · cases optimisticDataFinal <;>
              simp [chooseOptimisticFunction, transformSelectorSpec, h1, h2, h3, h4]
          · simp [chooseOptimisticFunction, transformSelectorSpec, h1, h2, h3, h4,
              Except.toOption]

/-! ## C7/C8 machinery: the single final envelope of the mutate phase -/

/-- The unique final envelope the mutate phase produces (resolved to the
caller when `returnImmediately` was not requested). -/
def finalEnvelope (returnCount : Option String) (uniqueIdentifierField : String)
    (obs : List OrderBy) (args : HandleMutationArgs)
    (phrases : MutationPhrases) (rowFinal : Option Row)
    (dataFinal : Option (List Row)) (choice : OptimisticChoice)
    (cur : Option FetchResult) (backend : BackendOutcome) :
    SupabaseProviderMutateResult :=
  match applyChoice returnCount uniqueIdentifierField obs choice cur rowFinal with
  | Except.error msg =>
    errorEnvelope args phrases rowFinal dataFinal
      (buildSupabaseProviderError (JSValue.str msg) args.mutationType
        phrases.error args.dataForSupabase (envOptimisticData rowFinal dataFinal)
        args.customMetadata)
  | Except.ok _ =>
    match backend with
    | BackendOutcome.resolves response =>
      successEnvelope args phrases rowFinal dataFinal response
    | BackendOutcome.rejects err =>
      errorEnvelope args phrases rowFinal dataFinal
        (buildSupabaseProviderError err args.mutationType phrases.error
          args.dataForSupabase (envOptimisticData rowFinal dataFinal)
          args.customMetadata)

/-- The mutate phase resolves nothing under immediate return and exactly
the final envelope otherwise. -/
theorem resolvedEnvelopes_runPhase (returnCount : Option String)
    (uniqueIdentifierField : String) (obs : List OrderBy)
    (args : HandleMutationArgs) (phrases : MutationPhrases)
    (rowFinal : Option Row) (dataFinal : Option (List Row))
    (choice : OptimisticChoice) (cur : Option FetchResult)
    (backend : BackendOutcome) :
    resolvedEnvelopes (runPhase returnCount uniqueIdentifierField obs args
        phrases rowFinal dataFinal choice cur backend)
      = if args.returnImmediately then []
        else [finalEnvelope returnCount uniqueIdentifierField obs args phrases
          rowFinal dataFinal choice cur backend] := by
  unfold runPhase finalEnvelope
  cases happ : applyChoice returnCount uniqueIdentifierField obs choice cur rowFinal with
  | error msg =>
    cases hri : args.returnImmediately <;> cases hoe : args.hasOnError <;>
      simp [resolvedEnvelopes, hri, hoe]
  | ok snap =>
    cases backend with
    | resolves response =>
      cases hri : args.returnImmediately <;> cases hcb : args.hasOnMutateSuccess <;>
        simp [resolvedEnvelopes, hri, hcb]
    | rejects err =>
      cases hri : args.returnImmediately <;> cases hoe : args.hasOnError <;>
        simp [resolvedEnvelopes, hri, hoe]

/-- The final envelope carries status success or error. -/
theorem finalEnvelope_status (returnCount : Option String)
    (uniqueIdentifierField : String) (obs : List OrderBy)
    (args : HandleMutationArgs) (phrases : MutationPhrases)
    (rowFinal : Option Row) (dataFinal : Option (List Row))
    (choice : OptimisticChoice) (cur : Option FetchResult)
    (backend : BackendOutcome) :
    (finalEnvelope returnCount uniqueIdentifierField obs args phrases rowFinal
        dataFinal choice cur backend).status = "success"
    ∨ (finalEnvelope returnCount uniqueIdentifierField obs args phrases rowFinal
        dataFinal choice cur backend).status = "error" := by
  unfold finalEnvelope
  cases applyChoice returnCount uniqueIdentifierField obs choice cur rowFinal with
  | error msg => exact Or.inr rfl
  | ok snap =>
    cases backend with
    | resolves response => exact Or.inl rfl
    | rejects err => exact Or.inr rfl

/-- The mutate phase never throws synchronously. -/
theorem threwSync_not_mem_runPhase (returnCount : Option String)
    (uniqueIdentifierField : String) (obs : List OrderBy)
    (args : HandleMutationArgs) (phrases : MutationPhrases)
    (rowFinal : Option Row) (dataFinal : Option (List Row))
    (choice : OptimisticChoice) (cur : Option FetchResult)
    (backend : BackendOutcome) (m : String) :
    Ev.threwSync m ∉ runPhase returnCount uniqueIdentifierField obs args
        phrases rowFinal dataFinal choice cur backend := by
  unfold runPhase
  cases happ : applyChoice returnCount uniqueIdentifierField obs choice cur rowFinal with
  | error msg =>
    cases hri : args.returnImmediately <;> cases hoe : args.hasOnError <;>
      simp [hri, hoe]
  | ok snap =>
    cases backend with
    | resolves response =>
      cases hri : args.returnImmediately <;> cases hcb : args.hasOnMutateSuccess <;>
        simp [hri, hcb]
    | rejects err =>
      cases hri : args.returnImmediately <;> cases hoe : args.hasOnError <;>
        simp [hri, hoe]

/-- Resolution behaviour of the executor body on a call that raises no
synchronous configuration error. -/
theorem core_single_resolution (vF : FlexValidator) (vD : DynValidator)
    (returnCount : Option String) (uniqueIdentifierField : String)
    (obs : List OrderBy) (freshId : String) (a : HandleMutationArgs)
    (cur : Option FetchResult) (backend : BackendOutcome)
    (hsync : ∀ m, Ev.threwSync m ∉ handleMutationCore vF vD returnCount
        uniqueIdentifierField obs freshId a cur backend) :
    (resolvedEnvelopes (handleMutationCore vF vD returnCount
        uniqueIdentifierField obs freshId a cur backend)).length = 1
    ∧ (a.returnImmediately = true →
        ∃ r t, handleMutationCore vF vD returnCount uniqueIdentifierField obs
            freshId a cur backend = Ev.resolvedP r :: t
          ∧ r.status = "pending" ∧ ∀ x, Ev.resolvedP x ∉ t)
    ∧ (a.returnImmediately = false →
        ∃ r, resolvedEnvelopes (handleMutationCore vF vD returnCount
            uniqueIdentifierField obs freshId a cur backend) = [r]
          ∧ (r.status = "success" ∨ r.status = "error")) := by
  cases hval : validationError vF vD a with
  | some e =>
    exact absurd (by simp [handleMutationCore, hval] :
      Ev.threwSync e ∈ handleMutationCore vF vD returnCount
        uniqueIdentifierField obs freshId a cur backend) (hsync e)
  | none =>
    cases hboth : a.optimisticRow.isSome && a.optimisticData.isSome with
    | true =>
      exact absurd (by simp [handleMutationCore, hval, hboth] :
        Ev.threwSync "You can only specify an optimisticRow or optimisticData, not both"
          ∈ handleMutationCore vF vD returnCount uniqueIdentifierField obs
              freshId a cur backend) (hsync _)
    | false =>
      cases hch : chooseForType a
          (materializeOptimistic freshId a.optimisticRow a.optimisticData).1
          (materializeOptimistic freshId a.optimisticRow a.optimisticData).2 with
      | error e =>
        refine absurd (?_ : Ev.threwSync e ∈ handleMutationCore vF vD returnCount
          uniqueIdentifierField obs freshId a cur backend) (hsync e)
        cases hri : a.returnImmediately <;>
          simp [handleMutationCore, hval, hboth, hch, hri]
      | ok choice =>
        have htr : handleMutationCore vF vD returnCount uniqueIdentifierField
            obs freshId a cur backend
          = (if a.returnImmediately then
              [Ev.resolvedP (pendingEnvelope a (getMutationPhrases a.mutationType)
                (materializeOptimistic freshId a.optimisticRow a.optimisticData).1
                (materializeOptimistic freshId a.optimisticRow a.optimisticData).2)]
             else [])
            ++ runPhase returnCount uniqueIdentifierField obs a
                (getMutationPhrases a.mutationType)
                (materializeOptimistic freshId a.optimisticRow a.optimisticData).1
                (materializeOptimistic freshId a.optimisticRow a.optimisticData).2
                choice cur backend := by
          simp [handleMutationCore, hval, hboth, hch]
        rw [htr]
        have hresolved := resolvedEnvelopes_runPhase returnCount
          uniqueIdentifierField obs a (getMutationPhrases a.mutationType)
          (materializeOptimistic freshId a.optimisticRow a.optimisticData).1
          (materializeOptimistic freshId a.optimisticRow a.optimisticData).2
          choice cur backend
        cases hri : a.returnImmediately with
        | false =>
          rw [if_neg (by simp [hri])]
          rw [if_neg (by simp [hri])] at hresolved
          refine ⟨?_, fun h => absurd h (by simp [hri]), fun _ => ?_⟩
          · rw [List.nil_append, hresolved]
            rfl
          · exact ⟨finalEnvelope returnCount uniqueIdentifierField obs a
              (getMutationPhrases a.mutationType)
              (materializeOptimistic freshId a.optimisticRow a.optimisticData).1
              (materializeOptimistic freshId a.optimisticRow a.optimisticData).2
              choice cur backend,
              by rw [List.nil_append, hresolved],
              finalEnvelope_status returnCount uniqueIdentifierField obs a
                (getMutationPhrases a.mutationType)
                (materializeOptimistic freshId a.optimisticRow a.optimisticData).1
                (materializeOptimistic freshId a.optimisticRow a.optimisticData).2
                choice cur backend⟩
        | true =>
          rw [if_pos rfl]
          rw [if_pos hri] at hresolved
          refine ⟨?_, fun _ => ?_, fun h => absurd h (by simp [hri])⟩
          · rw [resolvedEnvelopes_append, hresolved]
            rfl
          · refine ⟨pendingEnvelope a (getMutationPhrases a.mutationType)
              (materializeOptimistic freshId a.optimisticRow a.optimisticData).1
              (materializeOptimistic freshId a.optimisticRow a.optimisticData).2,
              runPhase returnCount uniqueIdentifierField obs a
                (getMutationPhrases a.mutationType)
                (materializeOptimistic freshId a.optimisticRow a.optimisticData).1
                (materializeOptimistic freshId a.optimisticRow a.optimisticData).2
                choice cur backend,
              rfl, rfl, fun x hx => ?_⟩
            have hmem := (resolvedP_mem_iff _ x).mp hx
            rw [hresolved] at hmem
            exact absurd hmem (by simp)

/-! ## Projections of normalization (the sentinel rewrite touches only
the two settings objects) -/

theorem na_mutationType (args : HandleMutationArgs) :
    (normalizeArgs args).mutationType = args.mutationType := rfl

theorem na_dataForSupabase (args : HandleMutationArgs) :
    (normalizeArgs args).dataForSupabase = args.dataForSupabase := rfl

theorem na_returnImmediately (args : HandleMutationArgs) :
    (normalizeArgs args).returnImmediately = args.returnImmediately := rfl

theorem na_optimisticRow (args : HandleMutationArgs) :
    (normalizeArgs args).optimisticRow = args.optimisticRow := rfl

theorem na_optimisticData (args : HandleMutationArgs) :
    (normalizeArgs args).optimisticData = args.optimisticData := rfl

theorem na_optimisticCount (args : HandleMutationArgs) :
    (normalizeArgs args).optimisticCount = args.optimisticCount := rfl

theorem na_customMetadata (args : HandleMutationArgs) :
    (normalizeArgs args).customMetadata = args.customMetadata := rfl

theorem na_hasOnMutateSuccess (args : HandleMutationArgs) :
    (normalizeArgs args).hasOnMutateSuccess = args.hasOnMutateSuccess := rfl

theorem na_hasOnError (args : HandleMutationArgs) :
    (normalizeArgs args).hasOnError = args.hasOnError := rfl

/-! ## Concrete inputs used by witnesses -/

def vFlexOk : FlexValidator := fun _ _ _ _ => Except.ok ()

def vDynOk : DynValidator := fun _ _ => Except.ok ()

def wArgsBoth : HandleMutationArgs :=
  { mutationType := "insert", dataForSupabase := none, shouldReturnRow := true
  , returnImmediately := false, optimisticRow := some wRowBob
  , optimisticData := some (Sum.inr [wRow1]), optimisticCount := none
  , customMetadata := none, flexibleMutationSettings := none
  , rpcSettings := none, hasOnMutateSuccess := true, hasOnError := true }

def wArgsValid : HandleMutationArgs :=
  { mutationType := "insert", dataForSupabase := none, shouldReturnRow := true
  , returnImmediately := false, optimisticRow := some wRowBob
  , optimisticData := none, optimisticCount := none, customMetadata := none
  , flexibleMutationSettings := none, rpcSettings := none
  , hasOnMutateSuccess := true, hasOnError := true }

def wBackendOk : BackendOutcome :=
  BackendOutcome.resolves (some { data := some [wRow1, wRowBob, wRow2], count := some 3 })

/-- True when an event is a synchronous throw. -/
def isThrewSyncEv (e : Ev) : Bool :=
  match e with
  | Ev.threwSync _ => true
  | _ => false

/-- From a decidable whole-trace check to the universally quantified
no-synchronous-throw statement. -/
theorem noThrew_of_all (t : List Ev)
    (h : (t.all fun e => !isThrewSyncEv e) = true) :
    ∀ m, Ev.threwSync m ∉ t := by
  intro m hm
  have := List.all_eq_true.mp h _ hm
  simp [isThrewSyncEv] at this

/-! ## C7: single promise resolution -/

/-- C7 counterexample: a call supplying both a speculative row and a
speculative dataset throws synchronously and its promise therefore
resolves ZERO times, refuting "for every handleMutation call, the
returned promise resolves exactly once". -/
theorem C7_counterexample :
    resolvedEnvelopes (handleMutation vFlexOk vDynOk (some "exact") "id" wOb
      "u1" wArgsBoth none (BackendOutcome.resolves none)) = []
    ∧ handleMutation vFlexOk vDynOk (some "exact") "id" wOb "u1" wArgsBoth
        none (BackendOutcome.resolves none)
      = [Ev.threwSync "You can only specify an optimisticRow or optimisticData, not both"] :=
  ⟨rfl, rfl⟩

/-- C7 (amended): for every `handleMutation` call that does not fail
with a synchronous configuration error (no synchronous throw in its
trace), the promise resolves exactly once: when immediate return is
requested, the single resolution is the pending envelope and is the very
first observable event (in particular it precedes the backend call and
its settling), and nothing is resolved afterwards (success/error are
delivered only via callbacks); otherwise the single resolution carries
the final success- or error-status envelope. -/
theorem C7_promise_single_resolution (vF : FlexValidator) (vD : DynValidator)
    (returnCount : Option String) (uniqueIdentifierField : String)
    (obs : List OrderBy) (freshId : String) (args : HandleMutationArgs)
    (cur : Option FetchResult) (backend : BackendOutcome)
    (hsync : ∀ m, Ev.threwSync m ∉ handleMutation vF vD returnCount
        uniqueIdentifierField obs freshId args cur backend) :
    (resolvedEnvelopes (handleMutation vF vD returnCount uniqueIdentifierField
        obs freshId args cur backend)).length = 1
    ∧ (args.returnImmediately = true →
        ∃ r t, handleMutation vF vD returnCount uniqueIdentifierField obs
            freshId args cur backend = Ev.resolvedP r :: t
          ∧ r.status = "pending" ∧ ∀ x, Ev.resolvedP x ∉ t)
    ∧ (args.returnImmediately = false →
        ∃ r, resolvedEnvelopes (handleMutation vF vD returnCount
            uniqueIdentifierField obs freshId args cur backend) = [r]
          ∧ (r.status = "success" ∨ r.status = "error")) :=
  core_single_resolution vF vD returnCount uniqueIdentifierField obs freshId
    (normalizeArgs args) cur backend hsync

/-- Witness for C7 at a concrete valid insert call. -/
theorem C7_promise_single_resolution_witness :
    (∀ m, Ev.threwSync m ∉ handleMutation vFlexOk vDynOk (some "exact") "id"
        wOb "u1" wArgsValid (some wSnap) wBackendOk)
    ∧ ((resolvedEnvelopes (handleMutation vFlexOk vDynOk (some "exact") "id"
          wOb "u1" wArgsValid (some wSnap) wBackendOk)).length = 1
      ∧ (wArgsValid.returnImmediately = true →
          ∃ r t, handleMutation vFlexOk vDynOk (some "exact") "id" wOb "u1"
              wArgsValid (some wSnap) wBackendOk = Ev.resolvedP r :: t
            ∧ r.status = "pending" ∧ ∀ x, Ev.resolvedP x ∉ t)
      ∧ (wArgsValid.returnImmediately = false →
          ∃ r, resolvedEnvelopes (handleMutation vFlexOk vDynOk (some "exact")
              "id" wOb "u1" wArgsValid (some wSnap) wBackendOk) = [r]
            ∧ (r.status = "success" ∨ r.status = "error"))) :=
  ⟨noThrew_of_all _ (by decide),
    C7_promise_single_resolution vFlexOk vDynOk (some "exact") "id" wOb "u1"
      wArgsValid (some wSnap) wBackendOk (noThrew_of_all _ (by decide))⟩

/-! ## C8: backend rejection handling -/

/-- C8: on a backend rejection in a configuration-valid call whose
optimistic transform applied cleanly, the coordinator builds the
normalized error (carrying the attempted action, summary, original
input, speculative input and custom metadata), invokes the error
callback exactly when provided, and resolves — never rejects — the
promise with an error-status envelope unless it was already resolved by
immediate return; the full trace is given explicitly and contains no
synchronous throw. -/
theorem C8_backend_rejection (vF : FlexValidator) (vD : DynValidator)
    (returnCount : Option String) (uniqueIdentifierField : String)
    (obs : List OrderBy) (freshId : String) (args : HandleMutationArgs)
    (cur : Option FetchResult) (err : JSValue) (choice : OptimisticChoice)
    (snap : FetchResult)
    (hval : validationError vF vD (normalizeArgs args) = none)
    (hboth : (args.optimisticRow.isSome && args.optimisticData.isSome) = false)
    (hch : chooseForType (normalizeArgs args)
        (materializeOptimistic freshId args.optimisticRow args.optimisticData).1
        (materializeOptimistic freshId args.optimisticRow args.optimisticData).2
      = Except.ok choice)
    (happly : applyChoice returnCount uniqueIdentifierField obs choice cur
        (materializeOptimistic freshId args.optimisticRow args.optimisticData).1
      = Except.ok snap) :
    handleMutation vF vD returnCount uniqueIdentifierField obs freshId args cur
        (BackendOutcome.rejects err)
      = (if args.returnImmediately then
           [Ev.resolvedP (pendingEnvelope (normalizeArgs args)
             (getMutationPhrases args.mutationType)
             (materializeOptimistic freshId args.optimisticRow args.optimisticData).1
             (materializeOptimistic freshId args.optimisticRow args.optimisticData).2)]
         else [])
        ++ [Ev.backendCallStarted args.mutationType, Ev.optimisticApplied snap,
            Ev.backendSettled]
        ++ (if args.hasOnError then
             [Ev.errorCallback (buildSupabaseProviderError err args.mutationType
               (getMutationPhrases args.mutationType).error args.dataForSupabase
               (envOptimisticData
                 (materializeOptimistic freshId args.optimisticRow args.optimisticData).1
                 (materializeOptimistic freshId args.optimisticRow args.optimisticData).2)
               args.customMetadata)]
           else [])
        ++ (if args.returnImmediately then [] else
             [Ev.resolvedP (errorEnvelope (normalizeArgs args)
               (getMutationPhrases args.mutationType)
               (materializeOptimistic freshId args.optimisticRow args.optimisticData).1
               (materializeOptimistic freshId args.optimisticRow args.optimisticData).2
               (buildSupabaseProviderError err args.mutationType
                 (getMutationPhrases args.mutationType).error args.dataForSupabase
                 (envOptimisticData
                   (materializeOptimistic freshId args.optimisticRow args.optimisticData).1
                   (materializeOptimistic freshId args.optimisticRow args.optimisticData).2)
                 args.customMetadata))])
    ∧ (buildSupabaseProviderError err args.mutationType
        (getMutationPhrases args.mutationType).error args.dataForSupabase
        (envOptimisticData
          (materializeOptimistic freshId args.optimisticRow args.optimisticData).1
          (materializeOptimistic freshId args.optimisticRow args.optimisticData).2)
        args.customMetadata).actionAttempted = args.mutationType
    ∧ (buildSupabaseProviderError err args.mutationType
        (getMutationPhrases args.mutationType).error args.dataForSupabase
        (envOptimisticData
          (materializeOptimistic freshId args.optimisticRow args.optimisticData).1
          (materializeOptimistic freshId args.optimisticRow args.optimisticData).2)
        args.customMetadata).dataForSupabase = args.dataForSupabase
    ∧ (buildSupabaseProviderError err args.mutationType
        (getMutationPhrases args.mutationType).error args.dataForSupabase
        (envOptimisticData
          (materializeOptimistic freshId args.optimisticRow args.optimisticData).1
          (materializeOptimistic freshId args.optimisticRow args.optimisticData).2)
        args.customMetadata).customMetadata = args.customMetadata
    ∧ (errorEnvelope (normalizeArgs args) (getMutationPhrases args.mutationType)
        (materializeOptimistic freshId args.optimisticRow args.optimisticData).1
        (materializeOptimistic freshId args.optimisticRow args.optimisticData).2
        (buildSupabaseProviderError err args.mutationType
          (getMutationPhrases args.mutationType).error args.dataForSupabase
          (envOptimisticData
            (materializeOptimistic freshId args.optimisticRow args.optimisticData).1
            (materializeOptimistic freshId args.optimisticRow args.optimisticData).2)
          args.customMetadata)).status = "error"
    ∧ ∀ m, Ev.threwSync m ∉ handleMutation vF vD returnCount
        uniqueIdentifierField obs freshId args cur (BackendOutcome.rejects err) := by
  have htrace : handleMutation vF vD returnCount uniqueIdentifierField obs
      freshId args cur (BackendOutcome.rejects err)
    = (if args.returnImmediately then
         [Ev.resolvedP (pendingEnvelope (normalizeArgs args)
           (getMutationPhrases args.mutationType)
           (materializeOptimistic freshId args.optimisticRow args.optimisticData).1
           (materializeOptimistic freshId args.optimisticRow args.optimisticData).2)]
       else [])
      ++ [Ev.backendCallStarted args.mutationType, Ev.optimisticApplied snap,
          Ev.backendSettled]
      ++ (if args.hasOnError then
           [Ev.errorCallback (buildSupabaseProviderError err args.mutationType
             (getMutationPhrases args.mutationType).error args.dataForSupabase
             (envOptimisticData
               (materializeOptimistic freshId args.optimisticRow args.optimisticData).1
               (materializeOptimistic freshId args.optimisticRow args.optimisticData).2)
             args.customMetadata)]
         else [])
      ++ (if args.returnImmediately then [] else
           [Ev.resolvedP (errorEnvelope (normalizeArgs args)
             (getMutationPhrases args.mutationType)
             (materializeOptimistic freshId args.optimisticRow args.optimisticData).1
             (materializeOptimistic freshId args.optimisticRow args.optimisticData).2
             (buildSupabaseProviderError err args.mutationType
               (getMutationPhrases args.mutationType).error args.dataForSupabase
               (envOptimisticData
                 (materializeOptimistic freshId args.optimisticRow args.optimisticData).1
                 (materializeOptimistic freshId args.optimisticRow args.optimisticData).2)
               args.customMetadata))]) := by
    simp [handleMutation, handleMutationCore, hval, hboth, hch, runPhase,
      happly, na_mutationType, na_optimisticRow, na_optimisticData,
      na_returnImmediately, na_hasOnError, na_dataForSupabase,
      na_customMetadata, na_optimisticCount]
  refine ⟨htrace, rfl, rfl, rfl, rfl, ?_⟩
  intro m hm
  rw [htrace] at hm
  cases hri : args.returnImmediately <;> cases hoe : args.hasOnError <;>
    simp [hri, hoe] at hm

/-- Witness for C8 at a concrete insert call rejected by the backend. -/
theorem C8_backend_rejection_witness :
    validationError vFlexOk vDynOk (normalizeArgs wArgsValid) = none
    ∧ (wArgsValid.optimisticRow.isSome && wArgsValid.optimisticData.isSome) = false
    ∧ chooseForType (normalizeArgs wArgsValid)
        (materializeOptimistic "u1" wArgsValid.optimisticRow wArgsValid.optimisticData).1
        (materializeOptimistic "u1" wArgsValid.optimisticRow wArgsValid.optimisticData).2
      = Except.ok OptimisticChoice.addRow
    ∧ applyChoice (some "exact") "id" wOb OptimisticChoice.addRow (some wSnap)
        (materializeOptimistic "u1" wArgsValid.optimisticRow wArgsValid.optimisticData).1
      = Except.ok (addRowOptimistically (some "exact") wOb (some wSnap)
          (stampOptimistic "u1" wRowBob))
    ∧ (∀ m, Ev.threwSync m ∉ handleMutation vFlexOk vDynOk (some "exact") "id"
        wOb "u1" wArgsValid (some wSnap)
        (BackendOutcome.rejects (JSValue.str "boom"))) :=
  ⟨rfl, rfl, rfl, rfl,
    (C8_backend_rejection vFlexOk vDynOk (some "exact") "id" wOb "u1"
      wArgsValid (some wSnap) (JSValue.str "boom") OptimisticChoice.addRow
      (addRowOptimistically (some "exact") wOb (some wSnap)
        (stampOptimistic "u1" wRowBob)) rfl rfl rfl rfl).2.2.2.2.2⟩

/-! ## C9: empty-string optimistic operation behaves as unset -/

/-- Replace the flexible-mutation optimistic-operation setting. -/
def withFlexibleOptimisticOperation (args : HandleMutationArgs)
    (op : Option String) : HandleMutationArgs :=
  { args with flexibleMutationSettings :=
      args.flexibleMutationSettings.map (fun s =>
        { s with optimisticOperation := op }) }

/-- Replace the rpc optimistic-operation setting. -/
def withRpcOptimisticOperation (args : HandleMutationArgs)
    (op : Option String) : HandleMutationArgs :=
  { args with rpcSettings :=
      args.rpcSettings.map (fun s => { s with optimisticOperation := op }) }

/-- C9: passing the optimistic-operation setting as the empty string is
observably identical to passing it as unset, for flexible-mutation and
rpc settings alike and for every call; and the unset operation selects
the identity transform. -/
theorem C9_empty_string_is_unset (vF : FlexValidator) (vD : DynValidator)
    (returnCount : Option String) (uniqueIdentifierField : String)
    (obs : List OrderBy) (freshId : String) (args : HandleMutationArgs)
    (cur : Option FetchResult) (backend : BackendOutcome) :
    handleMutation vF vD returnCount uniqueIdentifierField obs freshId
        (withFlexibleOptimisticOperation args (some "")) cur backend
      = handleMutation vF vD returnCount uniqueIdentifierField obs freshId
          (withFlexibleOptimisticOperation args none) cur backend
    ∧ handleMutation vF vD returnCount uniqueIdentifierField obs freshId
        (withRpcOptimisticOperation args (some "")) cur backend
      = handleMutation vF vD returnCount uniqueIdentifierField obs freshId
          (withRpcOptimisticOperation args none) cur backend
    ∧ ∀ (rowFinal : Option Row) (dataFinal : Option (List Row))
        (oc : Option Int),
        chooseOptimisticFunction none rowFinal dataFinal oc
          = Except.ok OptimisticChoice.identity := by
  refine ⟨?_, ?_, fun _ _ _ => rfl⟩
  · unfold handleMutation
    congr 1
    unfold normalizeArgs withFlexibleOptimisticOperation
    cases args.flexibleMutationSettings with
    | none => rfl
    | some s => simp
  · unfold handleMutation
    congr 1
    unfold normalizeArgs withRpcOptimisticOperation
    cases args.rpcSettings with
    | none => rfl
    | some s => simp

/-! ## C10: a single-object speculative dataset becomes the speculative row -/

/-- C10: a non-array single-object speculative dataset is reinterpreted
as the speculative row — stamped with a fresh `optimisticId` and
`isOptimistic: true` — and the dataset-shaped input is left unset;
consequently a requested replaceData operation falls back to the
identity transform, while addRow/editRow/deleteRow use the object as
their speculative row. -/
theorem C10_single_object_dataset (freshId : String) (r : Row) :
    materializeOptimistic freshId none (some (Sum.inl r))
      = (some (stampOptimistic freshId r), none)
    ∧ getField (stampOptimistic freshId r) "optimisticId" = JSValue.str freshId
    ∧ getField (stampOptimistic freshId r) "isOptimistic" = JSValue.bool true
    ∧ (∀ oc, chooseOptimisticFunction (some "replaceData")
        (some (stampOptimistic freshId r)) none oc
        = Except.ok OptimisticChoice.identity)
    ∧ (∀ oc, chooseOptimisticFunction (some "addRow")
        (some (stampOptimistic freshId r)) none oc
        = Except.ok OptimisticChoice.addRow)
    ∧ (∀ oc, chooseOptimisticFunction (some "editRow")
        (some (stampOptimistic freshId r)) none oc
        = Except.ok OptimisticChoice.editRow)
    ∧ (∀ oc, chooseOptimisticFunction (some "deleteRow")
        (some (stampOptimistic freshId r)) none oc
        = Except.ok OptimisticChoice.deleteRow) := by
  refine ⟨rfl, ?_, rfl, fun _ => rfl, fun _ => rfl, fun _ => rfl, fun _ => rfl⟩
  simp [stampOptimistic, getField]

/-- Witness for C2 at a concrete bad speculative row. -/
theorem C2_delete_invalid_input_witness :
    stampOptimistic "u1" [("id", JSValue.null)]
        = stampOptimistic "u1" [("id", JSValue.null)]
    ∧ isScalar (getField (stampOptimistic "u1" [("id", JSValue.null)]) "id") = false
    ∧ deleteRowOptimistically (some "exact") "id" (some wSnap)
        (stampOptimistic "u1" [("id", JSValue.null)])
      = Except.error deleteInvalidMsg :=
  ⟨rfl, by decide,
    (C2_delete_invalid_input (some "exact") "id" wOb "u1" [("id", JSValue.null)]
      (stampOptimistic "u1" [("id", JSValue.null)]) rfl (by decide)).1 wSnap⟩

end PlasmicSupabase
